import Mathlib

/-!
Verification development for the invoice generator
(`invoice_generator.py` and `web_app.py`).

The Python sources are shallowly embedded: CSV cells become
`Option String` (with `none` for a pandas `NaN` / missing value), rows
become ordered association lists from column label to cell, machine
floats on the payment amounts become exact rationals, and the rendered
PDF becomes a list of layout blocks mirroring the order in which
`create_invoice_pdf` appends flowables to its `content` list.

Python string primitives (`str.strip`, `str.lower`, `str.upper`,
`str.split`, substring `in`, `float(...)`, `int(...)`) are modelled by
structurally recursive functions over character lists so that concrete
instances can be evaluated inside proofs.
-/

namespace InvoiceGen

/-! ## Models of the Python string primitives -/

/-- Model of Python `str.strip()`: drop leading and trailing whitespace. -/
def pyStrip (s : String) : String :=
  String.mk (((s.data.dropWhile Char.isWhitespace).reverse.dropWhile Char.isWhitespace).reverse)

/-- Model of Python `str.lower()` (ASCII case folding). -/
def pyLower (s : String) : String :=
  String.mk (s.data.map Char.toLower)

/-- Model of Python `str.upper()` (ASCII case folding). -/
def pyUpper (s : String) : String :=
  String.mk (s.data.map Char.toUpper)

/-- Whether the character list `cs` starts with the pattern `pat`. -/
def listStartsWith : List Char → List Char → Bool
  | _, [] => true
  | [], _ :: _ => false
  | c :: cs, d :: ds => c = d && listStartsWith cs ds

/-- Whether the pattern `pat` occurs as a contiguous run inside `cs`. -/
def listOccurs : List Char → List Char → Bool
  | [], pat => pat.isEmpty
  | c :: cs, pat => listStartsWith (c :: cs) pat || listOccurs cs pat

/-- Model of Python substring membership `sub in s`. -/
def strContains (s sub : String) : Bool :=
  listOccurs s.data sub.data

/-- Helper for `pySplit`: `cur` holds the characters of the word being
read, in reverse order. -/
def pySplitAux : List Char → List Char → List String
  | cur, [] => if cur.isEmpty then [] else [String.mk cur.reverse]
  | cur, c :: cs =>
    if c.isWhitespace then
      if cur.isEmpty then pySplitAux [] cs
      else String.mk cur.reverse :: pySplitAux [] cs
    else pySplitAux (c :: cur) cs

/-- Model of Python `str.split()` with no argument: split on runs of
whitespace, never producing empty words. -/
def pySplit (s : String) : List String :=
  pySplitAux [] s.data

/-- Model of Python `sep.join(xs)`. -/
def pyJoin (sep : String) : List String → String
  | [] => ""
  | [x] => x
  | x :: y :: xs => x ++ sep ++ pyJoin sep (y :: xs)

/-- Split a character list at the first character satisfying `p`;
returns the part before it and, when found, the part after it. -/
def splitAtChar : List Char → (Char → Bool) → List Char × Option (List Char)
  | [], _ => ([], none)
  | c :: cs, p =>
    if p c then ([], some cs)
    else
      let r := splitAtChar cs p
      (c :: r.1, r.2)

/-- Value of a nonempty all-digit character list, `none` otherwise. -/
def digitsVal? (cs : List Char) : Option Nat :=
  if !cs.isEmpty && cs.all Char.isDigit then
    some (cs.foldl (fun a c => a * 10 + (c.toNat - 48)) 0)
  else none

/-- Consume an optional leading sign; returns `true` for a minus sign. -/
def parseSign : List Char → Bool × List Char
  | '-' :: cs => (true, cs)
  | '+' :: cs => (false, cs)
  | cs => (false, cs)

/-- Parse the mantissa of a decimal literal: digits with an optional
decimal point, at least one digit overall. -/
def parseMantissa (cs : List Char) : Option ℚ :=
  match splitAtChar cs (fun c => c = '.') with
  | (ip, none) => (digitsVal? ip).map (fun n => (n : ℚ))
  | (ip, some fp) =>
    if ip.all Char.isDigit && fp.all Char.isDigit && !(ip.isEmpty && fp.isEmpty) then
      let iv : ℕ := ip.foldl (fun a c => a * 10 + (c.toNat - 48)) 0
      let fv : ℕ := fp.foldl (fun a c => a * 10 + (c.toNat - 48)) 0
      some ((iv : ℚ) + (fv : ℚ) / (10 : ℚ) ^ fp.length)
    else none

/-- Model of Python `float(s)` on finite decimal and scientific
literals, as an exact rational (`inf`, `nan` and digit-group
underscores are not modelled). Returns `none` where `float` raises
`ValueError`. -/
def pythonFloat (s : String) : Option ℚ :=
  let cs := (pyStrip s).data
  let sg := parseSign cs
  match splitAtChar sg.2 (fun c => c = 'e' || c = 'E') with
  | (mant, none) =>
    (parseMantissa mant).map (fun m => if sg.1 then -m else m)
  | (mant, some ecs) =>
    match parseMantissa mant with
    | none => none
    | some m =>
      let esg := parseSign ecs
      match digitsVal? esg.2 with
      | none => none
      | some e =>
        let q := m * (if esg.1 then ((10 : ℚ) ^ e)⁻¹ else (10 : ℚ) ^ e)
        some (if sg.1 then -q else q)

/-- Model of Python `int(...)` applied to a float value: truncation
toward zero. -/
def truncInt (q : ℚ) : ℤ :=
  if 0 ≤ q then ⌊q⌋ else ⌈q⌉

/-! ## Data model: raw rows -/

/-- A raw CSV row as pandas presents it: an ordered mapping from column
label to cell. A `none` cell models a `NaN` (missing) value; a `some`
cell holds the `str(...)` rendering of the stored value. -/
structure Row where
  cells : List (String × Option String)
deriving DecidableEq

/-- Model of `row[name]` guarded by `name in row.index`: `none` when the
label is absent, `some none` when the cell is `NaN`. -/
def Row.findCell? (r : Row) (n : String) : Option (Option String) :=
  (r.cells.find? (fun p => p.1 == n)).map (fun p => p.2)

/-- Embedding of `get_column_value` (invoice_generator.py lines
109-114): return the stripped value of the first candidate column that
exists, is not `NaN`, and is nonempty after stripping; otherwise the
default. -/
def get_column_value (row : Row) (possible_names : List String) (d : String) : String :=
  match possible_names with
  | [] => d
  | n :: ns =>
    match row.findCell? n with
    | some (some v) => if pyStrip v ≠ "" then pyStrip v else get_column_value row ns d
    | _ => get_column_value row ns d

/-- Whether a single candidate column would be accepted by
`get_column_value`: present, not `NaN`, nonempty after stripping. -/
def isGoodCell (r : Row) (n : String) : Bool :=
  match r.findCell? n with
  | some (some v) => pyStrip v ≠ ""
  | _ => false

/-- Modelled from the spec: `resolveField` as §4.1 words it — scan the
candidates in order and return the stripped value of the first whose
cell exists, is not null, and is nonempty after trimming; `none` when
every candidate fails. Used to compare the description in the spec against
`get_column_value`. -/
def firstNonEmptySpec (row : Row) (names : List String) : Option String :=
  names.findSome? fun n =>
    match row.findCell? n with
    | some (some v) => if pyStrip v ≠ "" then some (pyStrip v) else none
    | _ => none

/-! ## Column synonym lists (from `create_invoice_pdf` and `main`) -/

def orderIdColumns : List String :=
  ["ORDER-ID", "Order ID", "ORDER ID", "order-id", "OrderID"]

def namaColumns : List String :=
  ["Nama Lengkap", "Nama", "Name", "NAMA LENGKAP"]

def alamatColumns : List String :=
  ["Alamat Pengiriman", "Alamat", "Address", "ALAMAT PENGIRIMAN"]

def ukuranColumns : List String :=
  ["Ukuran Kaos (size)", "Ukuran", "Size", "UKURAN KAOS", "Ukuran Kaos"]

def qtyColumns : List String :=
  ["Jumlah (QTY)", "Jumlah", "QTY", "Qty", "JUMLAH (QTY)"]

def metodeColumns : List String :=
  ["Metode Pembayaran", "Metode", "Payment Method", "METODE PEMBAYARAN"]

def statusColumns : List String :=
  ["STATUS PEMBAYARAN", "Status Pembayaran", "Status", "Payment Status"]

def timestampColumns : List String :=
  ["Timestamp", "Tanggal", "Date", "TIMESTAMP"]

def phoneColumns : List String :=
  ["No HP", "No. HP", "Phone", "Telepon", "NO HP", "Nomor HP"]

/-! ## Configuration constants (invoice_generator.py lines 34-53) -/

def HARGA_SATUAN : ℤ := 100000
def COMPANY_NAME : String := "TOKO KAOS KEREN"
def COMPANY_WEBSITE : String := "www.tokokaoskeren.com"
def BANK_NAME : String := "Bank BCA"
def BANK_ACCOUNT : String := "1234567890"
def BANK_HOLDER : String := "PT TOKO KAOS KEREN"

/-! ## The record resolver (data-extraction part of `create_invoice_pdf`) -/

/-- Embedding of the quantity block of `create_invoice_pdf` (lines
130-134): resolve the quantity column with default `"1"`, then
`int(float(...))`, falling back to `1` when the parse raises. -/
def resolveQuantity (row : Row) : ℤ :=
  let qty_raw := get_column_value row qtyColumns "1"
  match pythonFloat qty_raw with
  | some q => truncInt q
  | none => 1

/-- The canonical invoice record assembled at the top of
`create_invoice_pdf` (lines 124-157): resolved fields, quantity, price
totals and payment state. Monetary amounts are exact rationals standing
for the Python numbers (`jumlah_dibayar` is a float in the DP branch). -/
structure InvoiceRecord where
  order_id : String
  nama : String
  alamat : String
  ukuran : String
  qty : ℤ
  metode_bayar : String
  status_bayar : String
  timestamp : String
  phone : String
  harga_satuan : ℤ
  total_harga : ℤ
  is_dp : Bool
  jumlah_dibayar : ℚ
  sisa_tagihan : ℚ
deriving DecidableEq

/-- Embedding of the data-extraction and price-calculation section of
`create_invoice_pdf` (lines 124-157). `harga_satuan` is the unit price
(`HARGA_SATUAN` in the CLI) and `now` stands for the
`datetime.now().strftime(...)` string used as the timestamp default. -/
def buildInvoiceRecord (row : Row) (harga_satuan : ℤ) (now : String) : InvoiceRecord :=
  let order_id := get_column_value row orderIdColumns "-"
  let nama := get_column_value row namaColumns "-"
  let alamat := get_column_value row alamatColumns "-"
  let ukuran := get_column_value row ukuranColumns "-"
  let qty := resolveQuantity row
  let metode_bayar := get_column_value row metodeColumns "-"
  let status_bayar := get_column_value row statusColumns "-"
  let timestamp := get_column_value row timestampColumns now
  let phone := get_column_value row phoneColumns "-"
  let total_harga := harga_satuan * qty
  let is_dp := strContains (pyLower metode_bayar) "dp" || strContains (pyLower metode_bayar) "50%"
  let jumlah_dibayar : ℚ :=
    if is_dp then (total_harga : ℚ) * (1 / 2)
    else if strContains (pyLower status_bayar) "lunas" then (total_harga : ℚ) else 0
  let sisa_tagihan : ℚ := (total_harga : ℚ) - jumlah_dibayar
  { order_id := order_id, nama := nama, alamat := alamat, ukuran := ukuran,
    qty := qty, metode_bayar := metode_bayar, status_bayar := status_bayar,
    timestamp := timestamp, phone := phone, harga_satuan := harga_satuan,
    total_harga := total_harga, is_dp := is_dp,
    jumlah_dibayar := jumlah_dibayar, sisa_tagihan := sisa_tagihan }

/-! ## Filename sanitization (invoice_generator.py lines 70-78) -/

/-- The characters replaced by `re.sub` in `sanitize_filename`. -/
def illegalFilenameChars : List Char :=
  ['<', '>', ':', '"', '/', '\\', '|', '?', '*']

/-- Collapse each run of underscores to a single underscore
(the `re.sub` on `_+`). -/
def collapseUnderscores (cs : List Char) : List Char :=
  (cs.foldl (fun acc c => if c = '_' && acc.head? = some '_' then acc else c :: acc) []).reverse

/-- Model of Python `str.strip('_')`. -/
def stripUnderscores (cs : List Char) : List Char :=
  ((cs.dropWhile (fun c => c = '_')).reverse.dropWhile (fun c => c = '_')).reverse

/-- Embedding of `sanitize_filename`: replace filesystem-illegal
characters and spaces with underscores, collapse repeated underscores,
strip leading and trailing underscores. -/
def sanitize_filename (name : String) : String :=
  let s1 := name.data.map (fun c => if illegalFilenameChars.contains c then '_' else c)
  let s2 := s1.map (fun c => if c = ' ' then '_' else c)
  String.mk (stripUnderscores (collapseUnderscores s2))

/-! ## Currency formatting (invoice_generator.py lines 80-82) -/

/-- Rounding to the nearest integer with ties to even, as the Python
format specifier .0f does on exactly-representable values. -/
def roundHalfEven (q : ℚ) : ℤ :=
  if q - ⌊q⌋ < 1 / 2 then ⌊q⌋
  else if 1 / 2 < q - ⌊q⌋ then ⌊q⌋ + 1
  else if ⌊q⌋ % 2 = 0 then ⌊q⌋ else ⌊q⌋ + 1

/-- Group a digit list (least significant first) into blocks of three. -/
def chunk3 : List Char → List (List Char)
  | [] => []
  | [a] => [[a]]
  | [a, b] => [[a, b]]
  | a :: b :: c :: rest => [a, b, c] :: chunk3 rest

/-- Embedding of `format_currency`: the Python format `Rp` followed by the amount rounded to zero
decimals and comma-grouped, with the comma group separators replaced by periods. -/
def format_currency (amount : ℚ) : String :=
  let n := roundHalfEven amount
  let groups := ((chunk3 (Nat.toDigits 10 n.natAbs).reverse).map List.reverse).reverse
  "Rp " ++ (if n < 0 then "-" else "") ++ pyJoin "." (groups.map String.mk)

/-! ## Word wrapping (invoice_generator.py lines 84-107) -/

/-- One step of the greedy loop in `wrap_text`: the state is the
accumulated `lines` list and the `current_line` being built. -/
def wrapStep (max_chars : ℕ) (st : List String × String) (word : String) : List String × String :=
  if st.2.length + word.length + 1 ≤ max_chars then
    (st.1, if st.2 = "" then word else st.2 ++ " " ++ word)
  else
    ((if st.2 ≠ "" then st.1 ++ [st.2] else st.1), word)

/-- The list of wrapped lines produced by the loop of `wrap_text` from
a word list: fold `wrapStep` and flush the final `current_line`. -/
def wrap_text_lines (words : List String) (max_chars : ℕ) : List String :=
  let st := words.foldl (wrapStep max_chars) ([], "")
  if st.2 ≠ "" then st.1 ++ [st.2] else st.1

/-- Embedding of `wrap_text`: `-` for a missing or empty value, the
text verbatim when it already fits, otherwise the greedy word wrap
joined with newlines. The input is `Option String` so that a pandas
`NaN` (`pd.isna`) can be passed. -/
def wrap_text (text : Option String) (max_chars : ℕ) : String :=
  match text with
  | none => "-"
  | some t =>
    if t = "" then "-"
    else if t.length ≤ max_chars then t
    else pyJoin "\n" (wrap_text_lines (pySplit t) max_chars)

/-- Application of `wrap_text` at its declared default width 40. -/
def wrap_text_default (text : Option String) : String :=
  wrap_text text 40

/-! ## The invoice renderer (layout part of `create_invoice_pdf`) -/

/-- One flowable appended to the `content` list of
`create_invoice_pdf`, tagged with the data that parametrizes it. -/
inductive Block where
  | headerTable (logoIsImage : Bool)
  | spacer
  | divider
  | invoiceTitle (order_id : String)
  | dateLine (timestamp : String)
  | sectionHeader (title : String)
  | customerTable (nama : String) (alamatWrapped : String) (phone : String)
  | orderTable (ukuran : String) (qty : ℤ) (hargaSatuan : String) (subtotal : String)
  | summaryTable (rows : List (String × String))
  | statusBanner (text : String) (isPaidColor : Bool)
  | methodLine (metode : String)
  | bankInfo (bankName : String) (bankAccount : String) (bankHolder : String)
  | footerDivider
  | footerText
deriving DecidableEq

/-- Embedding of the layout section of `create_invoice_pdf` (lines
214-424): the sequence of blocks appended to `content`, in order. The
summary rows and the bank-transfer block are conditional exactly as in
the source; `logoExists` mirrors the `logo_path and os.path.exists`
test. -/
def renderInvoice (rec : InvoiceRecord) (logoExists : Bool) : List Block :=
  let summaryRows :=
    [("Total Harga:", format_currency (rec.total_harga : ℚ))] ++
    (if rec.is_dp then
      [("DP 50% Dibayar:", format_currency rec.jumlah_dibayar),
       ("SISA TAGIHAN:", format_currency rec.sisa_tagihan)]
     else
      [("Jumlah Dibayar:", format_currency rec.jumlah_dibayar)] ++
      (if rec.sisa_tagihan > 0 then [("SISA TAGIHAN:", format_currency rec.sisa_tagihan)] else []))
  [Block.headerTable logoExists, Block.spacer,
   Block.divider, Block.spacer,
   Block.invoiceTitle rec.order_id, Block.spacer,
   Block.dateLine rec.timestamp, Block.spacer,
   Block.sectionHeader "INFORMASI PELANGGAN",
   Block.customerTable rec.nama (wrap_text (some rec.alamat) 50) rec.phone, Block.spacer,
   Block.sectionHeader "DETAIL PESANAN",
   Block.orderTable rec.ukuran rec.qty (format_currency (rec.harga_satuan : ℚ))
     (format_currency (rec.total_harga : ℚ)), Block.spacer,
   Block.summaryTable summaryRows, Block.spacer,
   Block.statusBanner ("STATUS: " ++ pyUpper rec.status_bayar)
     (strContains (pyLower rec.status_bayar) "lunas"), Block.spacer,
   Block.sectionHeader "METODE PEMBAYARAN", Block.methodLine rec.metode_bayar, Block.spacer] ++
  (if rec.sisa_tagihan > 0 then [Block.bankInfo BANK_NAME BANK_ACCOUNT BANK_HOLDER] else []) ++
  [Block.spacer, Block.footerDivider, Block.spacer, Block.footerText]

/-! ## The CLI batch loop (invoice_generator.py lines 495-508) -/

/-- The order id used for the output filename in `main`: same candidate
columns, but with the generated placeholder as the default. -/
def mainOrderIdForFilename (row : Row) (idx : ℕ) : String :=
  get_column_value row orderIdColumns ("ORDER" ++ toString (idx + 1))

/-- The output filename built in `main`:
`Invoice_` then the sanitized order id, an underscore, the sanitized
name, and `.pdf`. -/
def mainInvoiceFilename (row : Row) (idx : ℕ) : String :=
  "Invoice_" ++ sanitize_filename (mainOrderIdForFilename row idx) ++ "_"
    ++ sanitize_filename (get_column_value row namaColumns "Unknown") ++ ".pdf"

/-! ## The interactive (web) generation loop (web_app.py lines 305-340) -/

/-- The parameters declared by `create_invoice_pdf`
(`row, row_index, output_path, logo_path=None`). -/
def createInvoicePdfParams : List String :=
  ["row", "row_index", "output_path", "logo_path"]

/-- Python call binding: a call with `numPositional` positional
arguments and the given keyword arguments binds against a plain
parameter list exactly when the positional arguments do not overflow
and every keyword names a parameter not already bound positionally;
otherwise the call raises `TypeError` before the body runs. -/
def pythonCallAccepts (params : List String) (numPositional : ℕ) (kwargs : List String) : Bool :=
  numPositional ≤ params.length &&
  kwargs.all (fun k => (params.drop numPositional).contains k)

/-- The `TypeError` message text for the unexpected `config` keyword.
The apostrophes CPython puts around the argument name are omitted. -/
def typeErrorMsgConfig : String :=
  "create_invoice_pdf() got an unexpected keyword argument config"

/-- Embedding of the per-row generation loop of the web app: for each
selected row compute the filename, then attempt the call
`create_invoice_pdf(row, idx, output_path, None, config=pdf_config)`;
on success the file is recorded, on a `TypeError` the error list gets
the order id, a colon and the message. `idx` mirrors `enumerate`. -/
def webGenerateAux (idx : ℕ) (rows : List Row) (generated : List (String × String))
    (errors : List String) : List (String × String) × List String :=
  match rows with
  | [] => (generated, errors)
  | row :: rest =>
    let order_id := get_column_value row orderIdColumns ("ORDER" ++ toString (idx + 1))
    let nama := get_column_value row namaColumns "Unknown"
    let filename := "Invoice_" ++ sanitize_filename order_id ++ "_"
      ++ sanitize_filename nama ++ ".pdf"
    if pythonCallAccepts createInvoicePdfParams 4 ["config"] then
      webGenerateAux (idx + 1) rest (generated ++ [(filename, filename)]) errors
    else
      webGenerateAux (idx + 1) rest generated (errors ++ [order_id ++ ": " ++ typeErrorMsgConfig])

/-- The interactive generation pass over the selected rows: returns the
`generated_files` list and the `errors` list. -/
def webGenerate (rows : List Row) : List (String × String) × List String :=
  webGenerateAux 0 rows [] []

/-! ## Helper lemmas -/

/-- The total of the record is the unit price times the resolved quantity,
by definition. -/
lemma total_harga_def (row : Row) (harga : ℤ) (now : String) :
    (buildInvoiceRecord row harga now).total_harga = harga * resolveQuantity row := rfl

/-- The quantity field of the record is the resolved quantity, by definition. -/
lemma qty_def (row : Row) (harga : ℤ) (now : String) :
    (buildInvoiceRecord row harga now).qty = resolveQuantity row := rfl

/-- The remaining amount is the total minus the paid amount, in both
payment branches. -/
lemma sisa_tagihan_def (row : Row) (harga : ℤ) (now : String) :
    (buildInvoiceRecord row harga now).sisa_tagihan
      = ((buildInvoiceRecord row harga now).total_harga : ℚ)
        - (buildInvoiceRecord row harga now).jumlah_dibayar := rfl

/-- The paid amount as the two-branch conditional of the source. -/
lemma jumlah_dibayar_def (row : Row) (harga : ℤ) (now : String) :
    (buildInvoiceRecord row harga now).jumlah_dibayar
      = if (buildInvoiceRecord row harga now).is_dp
          then ((buildInvoiceRecord row harga now).total_harga : ℚ) * (1 / 2)
        else if strContains (pyLower (buildInvoiceRecord row harga now).status_bayar) "lunas"
          then ((buildInvoiceRecord row harga now).total_harga : ℚ)
        else 0 := rfl

/-- The down-payment flag as the substring test of the source. -/
lemma is_dp_def (row : Row) (harga : ℤ) (now : String) :
    (buildInvoiceRecord row harga now).is_dp
      = (strContains (pyLower (buildInvoiceRecord row harga now).metode_bayar) "dp"
         || strContains (pyLower (buildInvoiceRecord row harga now).metode_bayar) "50%") := rfl

/-- The order id of the record comes from `get_column_value` with the
generic dash default. -/
lemma order_id_def (row : Row) (harga : ℤ) (now : String) :
    (buildInvoiceRecord row harga now).order_id
      = get_column_value row orderIdColumns "-" := rfl

/-- When every candidate column fails the `get_column_value` test, the
default is returned. -/
lemma get_column_value_eq_default (row : Row) (names : List String) (d : String)
    (h : ∀ n ∈ names, isGoodCell row n = false) : get_column_value row names d = d := by
  induction names with
  | nil => rfl
  | cons n ns ih =>
    have hn : isGoodCell row n = false := h n (List.mem_cons_self n ns)
    have hns : ∀ m ∈ ns, isGoodCell row m = false := fun m hm => h m (List.mem_cons_of_mem n hm)
    show (match row.findCell? n with
      | some (some v) => if pyStrip v ≠ "" then pyStrip v else get_column_value row ns d
      | _ => get_column_value row ns d) = d
    unfold isGoodCell at hn
    cases hc : row.findCell? n with
    | none => exact ih hns
    | some cell =>
      cases cell with
      | none => exact ih hns
      | some v =>
        rw [hc] at hn
        have hn' : decide (pyStrip v ≠ "") = false := hn
        simp only [decide_eq_false_iff_not, Decidable.not_not] at hn'
        show (if pyStrip v ≠ "" then pyStrip v else get_column_value row ns d) = d
        rw [if_neg (by simp [hn'])]
        exact ih hns

/-- On each row the web loop takes the error branch, because the
`config` keyword argument is rejected. -/
lemma webGenerateAux_cons (idx : ℕ) (r : Row) (rest : List Row)
    (gen : List (String × String)) (errs : List String) :
    webGenerateAux idx (r :: rest) gen errs
      = webGenerateAux (idx + 1) rest gen
          (errs ++ [get_column_value r orderIdColumns ("ORDER" ++ toString (idx + 1))
            ++ ": " ++ typeErrorMsgConfig]) := rfl

/-- The web loop never records a file and turns every row into an
error entry, whatever the starting accumulators are. -/
lemma webGenerateAux_spec (rows : List Row) : ∀ (idx : ℕ) (gen : List (String × String))
    (errs : List String),
    (webGenerateAux idx rows gen errs).1 = gen ∧
    (webGenerateAux idx rows gen errs).2.length = errs.length + rows.length := by
  induction rows with
  | nil => intro idx gen errs; exact ⟨rfl, by simp [webGenerateAux]⟩
  | cons r rest ih =>
    intro idx gen errs
    rw [webGenerateAux_cons]
    refine ⟨(ih _ _ _).1, ?_⟩
    rw [(ih _ _ _).2]
    simp [List.length_append]
    omega

/-! ## Claim theorems -/

/-- C1: in the interactive (web) mode, the per-row generation step
calls `create_invoice_pdf` with a `config` keyword argument that its
signature `(row, row_index, output_path, logo_path=None)` does not
declare, so the call binding is rejected (`TypeError`) for every row:
every selected row lands in the error list and the generated-files
list stays empty for every upload. -/
theorem web_generation_never_succeeds (rows : List Row) :
    pythonCallAccepts createInvoicePdfParams 4 ["config"] = false ∧
    (webGenerate rows).1 = [] ∧
    (webGenerate rows).2.length = rows.length := by
  refine ⟨by decide, ?_, ?_⟩
  · exact (webGenerateAux_spec rows 0 [] []).1
  · show (webGenerateAux 0 rows [] []).2.length = rows.length
    rw [(webGenerateAux_spec rows 0 [] []).2]
    simp

/-- C3: the record is flagged as a down payment exactly when the
lowercased payment-method text contains `dp` or `50%`; a down payment
pays half the total, otherwise the full total is paid exactly when the
lowercased payment-status text contains `lunas`, and nothing is paid
otherwise. -/
theorem payment_classification (row : Row) (harga : ℤ) (now : String) :
    (buildInvoiceRecord row harga now).is_dp
      = (strContains (pyLower (buildInvoiceRecord row harga now).metode_bayar) "dp"
         || strContains (pyLower (buildInvoiceRecord row harga now).metode_bayar) "50%") ∧
    ((buildInvoiceRecord row harga now).is_dp = true →
      (buildInvoiceRecord row harga now).jumlah_dibayar
        = ((buildInvoiceRecord row harga now).total_harga : ℚ) * (1 / 2)) ∧
    ((buildInvoiceRecord row harga now).is_dp = false →
      (buildInvoiceRecord row harga now).jumlah_dibayar
        = if strContains (pyLower (buildInvoiceRecord row harga now).status_bayar) "lunas"
            then ((buildInvoiceRecord row harga now).total_harga : ℚ) else 0) := by
  refine ⟨is_dp_def row harga now, ?_, ?_⟩
  · intro h
    rw [jumlah_dibayar_def, h]
    simp
  · intro h
    rw [jumlah_dibayar_def, h]
    simp

/-- Witness for C3: a `DP` payment method marks a down payment and pays
half, while a `LUNAS` status with a non-DP method pays the full total. -/
theorem payment_classification_witness :
    ((buildInvoiceRecord ⟨[("Metode Pembayaran", some "DP")]⟩ 100000 "t").is_dp = true ∧
      (buildInvoiceRecord ⟨[("Metode Pembayaran", some "DP")]⟩ 100000 "t").jumlah_dibayar
        = ((buildInvoiceRecord ⟨[("Metode Pembayaran", some "DP")]⟩ 100000 "t").total_harga : ℚ)
            * (1 / 2)) ∧
    ((buildInvoiceRecord ⟨[("STATUS PEMBAYARAN", some "LUNAS")]⟩ 100000 "t").is_dp = false ∧
      (buildInvoiceRecord ⟨[("STATUS PEMBAYARAN", some "LUNAS")]⟩ 100000 "t").jumlah_dibayar
        = if strContains (pyLower (buildInvoiceRecord ⟨[("STATUS PEMBAYARAN", some "LUNAS")]⟩
            100000 "t").status_bayar) "lunas"
          then ((buildInvoiceRecord ⟨[("STATUS PEMBAYARAN", some "LUNAS")]⟩ 100000 "t").total_harga : ℚ)
          else 0) :=
  ⟨⟨by decide, (payment_classification ⟨[("Metode Pembayaran", some "DP")]⟩ 100000 "t").2.1 (by decide)⟩,
   ⟨by decide, (payment_classification ⟨[("STATUS PEMBAYARAN", some "LUNAS")]⟩ 100000 "t").2.2 (by decide)⟩⟩

/-- C4: for every row, the total is the unit price times the quantity,
and the paid amount plus the remaining amount equals the total. -/
theorem total_and_balance_invariant (row : Row) (harga : ℤ) (now : String) :
    (buildInvoiceRecord row harga now).total_harga
      = harga * (buildInvoiceRecord row harga now).qty ∧
    (buildInvoiceRecord row harga now).jumlah_dibayar
        + (buildInvoiceRecord row harga now).sisa_tagihan
      = ((buildInvoiceRecord row harga now).total_harga : ℚ) := by
  refine ⟨rfl, ?_⟩
  rw [sisa_tagihan_def]
  ring

/-- C6: the quantity resolver parses numeric-ish text with truncation,
and falls back to 1 on malformed or missing input: `"3"` gives 3,
`"2.0"` gives 2, `"abc"` gives 1, and a missing cell gives 1. -/
theorem resolveQuantity_examples :
    resolveQuantity ⟨[("Qty", some "3")]⟩ = 3 ∧
    resolveQuantity ⟨[("Qty", some "2.0")]⟩ = 2 ∧
    resolveQuantity ⟨[("Qty", some "abc")]⟩ = 1 ∧
    resolveQuantity ⟨[]⟩ = 1 := by
  refine ⟨by decide, ?_, by decide, by decide⟩
  have h : pythonFloat (get_column_value ⟨[("Qty", some "2.0")]⟩ qtyColumns "1")
      = some (((2:ℕ):ℚ) + ((0:ℕ):ℚ) / (10:ℚ) ^ (1:ℕ)) := rfl
  show (match pythonFloat (get_column_value ⟨[("Qty", some "2.0")]⟩ qtyColumns "1") with
    | some q => truncInt q
    | none => (1 : ℤ)) = (2 : ℤ)
  rw [h]
  show truncInt (((2:ℕ):ℚ) + ((0:ℕ):ℚ) / (10:ℚ) ^ (1:ℕ)) = 2
  rw [show (((2:ℕ):ℚ) + ((0:ℕ):ℚ) / (10:ℚ) ^ (1:ℕ)) = 2 by norm_num]
  rw [truncInt, if_pos (by norm_num : (0:ℚ) ≤ 2)]
  norm_num

/-- Unfolding of `firstNonEmptySpec` on a nonempty candidate list. -/
lemma fnes_cons (row : Row) (n : String) (ns : List String) :
    firstNonEmptySpec row (n :: ns)
      = match row.findCell? n with
        | some (some v) => if pyStrip v ≠ "" then some (pyStrip v) else firstNonEmptySpec row ns
        | _ => firstNonEmptySpec row ns := by
  show List.findSome? (fun n => match row.findCell? n with
    | some (some v) => if pyStrip v ≠ "" then some (pyStrip v) else none
    | _ => none) (n :: ns) = _
  rw [List.findSome?_cons]
  cases hc : row.findCell? n with
  | none => rfl
  | some cell =>
    cases cell with
    | none => rfl
    | some v =>
      by_cases hv : pyStrip v ≠ "" <;> simp [hv, firstNonEmptySpec]

/-- Unfolding of `get_column_value` on a nonempty candidate list. -/
lemma gcv_cons (row : Row) (n : String) (ns : List String) (d : String) :
    get_column_value row (n :: ns) d
      = match row.findCell? n with
        | some (some v) => if pyStrip v ≠ "" then pyStrip v else get_column_value row ns d
        | _ => get_column_value row ns d := rfl

/-- C7: `get_column_value` refines the resolveField operation of the spec: it
returns the trimmed value of the first candidate column (in the given
priority order) that exists, is not null, and is nonempty after
trimming, and it falls back to the default exactly when every candidate
is absent, null, empty or whitespace-only. (The function is pure: it
only reads the row.) -/
theorem get_column_value_first_nonempty (row : Row) (names : List String) (d : String) :
    get_column_value row names d = (firstNonEmptySpec row names).getD d ∧
    (firstNonEmptySpec row names = none ↔ ∀ n ∈ names, isGoodCell row n = false) := by
  induction names with
  | nil => exact ⟨rfl, by simp [firstNonEmptySpec]⟩
  | cons n ns ih =>
    have hgood : isGoodCell row n = (match row.findCell? n with
      | some (some v) => decide (pyStrip v ≠ "")
      | _ => false) := rfl
    rw [gcv_cons, fnes_cons]
    cases hc : row.findCell? n with
    | none =>
      have hgn : isGoodCell row n = false := by rw [hgood, hc]
      refine ⟨ih.1, ?_⟩
      simp [List.forall_mem_cons, hgn, ih.2]
    | some cell =>
      cases cell with
      | none =>
        have hgn : isGoodCell row n = false := by rw [hgood, hc]
        refine ⟨ih.1, ?_⟩
        simp [List.forall_mem_cons, hgn, ih.2]
      | some v =>
        by_cases hv : pyStrip v ≠ ""
        · have hgn : isGoodCell row n = true := by rw [hgood, hc]; simpa using hv
          constructor
          · simp [hv]
          · simp [hv, List.forall_mem_cons, hgn]
        · have hgn : isGoodCell row n = false := by rw [hgood, hc]; simpa using hv
          constructor
          · simp [show pyStrip v = "" from not_not.mp hv, ih.1]
          · simp [show pyStrip v = "" from not_not.mp hv, List.forall_mem_cons, hgn, ih.2]

/-- Witness for C7 at a concrete row: the first candidate is
whitespace-only, so the trimmed value of the second candidate is returned. -/
theorem get_column_value_first_nonempty_witness :
    get_column_value ⟨[("A", some "  "), ("B", some " x ")]⟩ ["A", "B"] "-"
      = (firstNonEmptySpec ⟨[("A", some "  "), ("B", some " x ")]⟩ ["A", "B"]).getD "-" ∧
    (firstNonEmptySpec ⟨[("A", some "  "), ("B", some " x ")]⟩ ["A", "B"] = none ↔
      ∀ n ∈ ["A", "B"], isGoodCell ⟨[("A", some "  "), ("B", some " x ")]⟩ n = false) :=
  get_column_value_first_nonempty ⟨[("A", some "  "), ("B", some " x ")]⟩ ["A", "B"] "-"

/-- C10: the bank transfer block appears in the rendered document if
and only if the remaining amount due is positive; in particular it is
omitted when the invoice is fully settled. -/
theorem bank_info_iff_amount_due_positive (rec : InvoiceRecord) (logo : Bool) :
    Block.bankInfo BANK_NAME BANK_ACCOUNT BANK_HOLDER ∈ renderInvoice rec logo ↔
      0 < rec.sisa_tagihan := by
  by_cases h : rec.sisa_tagihan > 0 <;> simp [renderInvoice, h]

/-- Witness for C10 at a concrete record: a fully paid non-DP record
(`LUNAS`, quantity 1) renders without the bank transfer block. -/
theorem bank_info_iff_amount_due_positive_witness :
    Block.bankInfo BANK_NAME BANK_ACCOUNT BANK_HOLDER
        ∈ renderInvoice (buildInvoiceRecord ⟨[("STATUS PEMBAYARAN", some "LUNAS")]⟩ 100000 "t") false
      ↔ 0 < (buildInvoiceRecord ⟨[("STATUS PEMBAYARAN", some "LUNAS")]⟩ 100000 "t").sisa_tagihan :=
  bank_info_iff_amount_due_positive (buildInvoiceRecord ⟨[("STATUS PEMBAYARAN", some "LUNAS")]⟩ 100000 "t") false

/-- C2 counterexample: a parseable quantity cell `"0"` produces the
quantity 0, which is below 1 — the claimed `quantity ≥ 1` invariant
fails on the code. -/
theorem quantity_below_one_counterexample :
    resolveQuantity ⟨[("Qty", some "0")]⟩ = 0 ∧
    (buildInvoiceRecord ⟨[("Qty", some "0")]⟩ 100000 "t").qty < 1 :=
  ⟨by decide, by decide⟩

/-- C2 amended: the quantity defaults to 1 on a missing or malformed
cell, and is at least 1 provided any parseable quantity value is at
least 1; a parseable cell below 1 (such as `"0"` or a negative number)
is truncated as-is and yields a quantity below 1. -/
theorem quantity_ge_one_unless_parsed_below_one (row : Row)
    (h : ∀ q : ℚ, pythonFloat (get_column_value row qtyColumns "1") = some q → 1 ≤ q) :
    1 ≤ resolveQuantity row := by
  show (1:ℤ) ≤ (match pythonFloat (get_column_value row qtyColumns "1") with
    | some q => truncInt q
    | none => (1:ℤ))
  cases hq : pythonFloat (get_column_value row qtyColumns "1") with
  | none => exact le_refl 1
  | some q =>
    have h1 : (1:ℚ) ≤ q := h q hq
    show (1:ℤ) ≤ truncInt q
    rw [truncInt, if_pos (le_trans zero_le_one h1)]
    exact Int.le_floor.mpr (by exact_mod_cast h1)

/-- Witness for C2 (amended) at a concrete row with quantity `"3"`. -/
theorem quantity_ge_one_witness :
    1 ≤ resolveQuantity ⟨[("Qty", some "3")]⟩ :=
  quantity_ge_one_unless_parsed_below_one ⟨[("Qty", some "3")]⟩ (by
    intro q hq
    rw [show pythonFloat (get_column_value ⟨[("Qty", some "3")]⟩ qtyColumns "1")
      = some ((3:ℕ) : ℚ) from rfl] at hq
    rw [← Option.some.inj hq]
    norm_num)

/-- C5 counterexample: a row whose quantity cell parses to a negative
number gives a negative total, and with no down payment and no `lunas`
status nothing is paid, so the remaining amount due is negative. -/
theorem amount_due_negative_counterexample :
    (buildInvoiceRecord ⟨[("Qty", some "-2")]⟩ 100000 "t").sisa_tagihan < 0 := by
  rw [sisa_tagihan_def, jumlah_dibayar_def]
  rw [show (buildInvoiceRecord ⟨[("Qty", some "-2")]⟩ 100000 "t").is_dp = false from by decide]
  rw [show strContains (pyLower (buildInvoiceRecord ⟨[("Qty", some "-2")]⟩ 100000 "t").status_bayar)
    "lunas" = false from by decide]
  rw [show (buildInvoiceRecord ⟨[("Qty", some "-2")]⟩ 100000 "t").total_harga = -200000 from by decide]
  norm_num

/-- C5 amended: with a nonnegative unit price and a quantity of at
least 1 (so a nonnegative total), the remaining amount due is never
negative under the defined payment rules, and may be exactly 0. -/
theorem amount_due_nonneg_of_qty_ge_one (row : Row) (harga : ℤ) (now : String)
    (h0 : 0 ≤ harga) (h1 : 1 ≤ (buildInvoiceRecord row harga now).qty) :
    0 ≤ (buildInvoiceRecord row harga now).sisa_tagihan := by
  have h1' : (1:ℤ) ≤ resolveQuantity row := h1
  have htot : (0:ℚ) ≤ ((buildInvoiceRecord row harga now).total_harga : ℚ) := by
    rw [total_harga_def]
    have hz : (0:ℤ) ≤ harga * resolveQuantity row :=
      mul_nonneg h0 (le_trans zero_le_one h1')
    exact_mod_cast hz
  rw [sisa_tagihan_def, jumlah_dibayar_def]
  by_cases hdp : (buildInvoiceRecord row harga now).is_dp = true
  · rw [if_pos hdp]; linarith
  · rw [if_neg hdp]
    by_cases hl : strContains (pyLower (buildInvoiceRecord row harga now).status_bayar) "lunas" = true
    · rw [if_pos hl]; linarith
    · rw [if_neg hl]; linarith

/-- Witness for C5 (amended) at a concrete unpaid row with quantity 2. -/
theorem amount_due_nonneg_witness :
    (0:ℤ) ≤ 100000 ∧ 1 ≤ (buildInvoiceRecord ⟨[("Qty", some "2")]⟩ 100000 "t").qty ∧
    0 ≤ (buildInvoiceRecord ⟨[("Qty", some "2")]⟩ 100000 "t").sisa_tagihan :=
  ⟨by decide, by decide,
   amount_due_nonneg_of_qty_ge_one ⟨[("Qty", some "2")]⟩ 100000 "t" (by decide) (by decide)⟩

/-- C8 counterexample: on a row with no order-id column the built
record has the generic dash as its order id, not the generated
placeholder; only the output filename of the batch loop carries the
placeholder, so the rendered title row shows `-`. -/
theorem order_id_title_not_placeholder_counterexample :
    (buildInvoiceRecord ⟨[]⟩ 100000 "t").order_id = "-" ∧
    (buildInvoiceRecord ⟨[]⟩ 100000 "t").order_id ≠ "ORDER" ++ toString (0 + 1) ∧
    mainInvoiceFilename ⟨[]⟩ 0 = "Invoice_ORDER1_Unknown.pdf" ∧
    Block.invoiceTitle "-" ∈ renderInvoice (buildInvoiceRecord ⟨[]⟩ 100000 "t") false := by
  refine ⟨by decide, by decide, by decide, ?_⟩
  have ho : (buildInvoiceRecord ⟨[]⟩ 100000 "t").order_id = "-" := by decide
  simp [renderInvoice, ho]

/-- C8 amended: when every order-id candidate column is absent or
blank, the filename order id of the batch loop is the placeholder
`ORDER` followed by the 1-based row index, while the record built by `create_invoice_pdf`
(and hence the rendered title row) falls back to `-`. -/
theorem order_id_fallbacks (row : Row) (idx : ℕ) (harga : ℤ) (now : String)
    (h : ∀ n ∈ orderIdColumns, isGoodCell row n = false) :
    mainOrderIdForFilename row idx = "ORDER" ++ toString (idx + 1) ∧
    (buildInvoiceRecord row harga now).order_id = "-" := by
  constructor
  · exact get_column_value_eq_default row orderIdColumns _ h
  · rw [order_id_def]
    exact get_column_value_eq_default row orderIdColumns _ h

/-- Witness for C8 (amended) at the empty row and index 0. -/
theorem order_id_fallbacks_witness :
    mainOrderIdForFilename ⟨[]⟩ 0 = "ORDER" ++ toString (0 + 1) ∧
    (buildInvoiceRecord ⟨[]⟩ 100000 "t").order_id = "-" :=
  order_id_fallbacks ⟨[]⟩ 0 100000 "t" (by decide)

/-! ## Word-wrap properties -/

/-- A wrapped output line is legitimate for the word list `words` at
width `w`: it is the space-join of a nonempty contiguous chunk of the
words, and either fits in the width or is a single (over-long) word. -/
def lineFromChunk (words : List String) (w : ℕ) (line : String) : Prop :=
  ∃ pre chunk post, words = pre ++ chunk ++ post ∧ chunk ≠ [] ∧
    line = pyJoin " " chunk ∧ (line.length ≤ w ∨ chunk = [line])

/-- Loop invariant for the `current_line` being built: it is empty or
the space-join of a nonempty chunk ending the processed words, and
either fits or is a single word. -/
def curFromChunk (done : List String) (w : ℕ) (cur : String) : Prop :=
  cur = "" ∨ ∃ pre chunk, done = pre ++ chunk ∧ chunk ≠ [] ∧
    cur = pyJoin " " chunk ∧ (cur.length ≤ w ∨ chunk = [cur])

/-- Joining one more word appends a separator and the word. -/
lemma pyJoin_snoc (sep x : String) : ∀ (xs : List String), xs ≠ [] →
    pyJoin sep (xs ++ [x]) = pyJoin sep xs ++ sep ++ x
  | [], h => absurd rfl h
  | [a], _ => rfl
  | a :: b :: bs, _ => by
    show pyJoin sep (a :: b :: (bs ++ [x])) = pyJoin sep (a :: b :: bs) ++ sep ++ x
    rw [show pyJoin sep (a :: b :: (bs ++ [x])) = a ++ sep ++ pyJoin sep (b :: (bs ++ [x])) from rfl]
    rw [show (b :: (bs ++ [x])) = (b :: bs) ++ [x] from rfl]
    rw [pyJoin_snoc sep x (b :: bs) (by simp)]
    rw [show pyJoin sep (a :: b :: bs) = a ++ sep ++ pyJoin sep (b :: bs) from rfl]
    simp [String.append_assoc]

/-- A legitimate line stays legitimate when more words follow. -/
lemma lineFromChunk_mono (words ext : List String) (w : ℕ) (line : String) :
    lineFromChunk words w line → lineFromChunk (words ++ ext) w line := by
  rintro ⟨pre, chunk, post, h1, h2, h3, h4⟩
  exact ⟨pre, chunk, post ++ ext, by rw [h1]; simp, h2, h3, h4⟩

/-- One `wrapStep` preserves the wrap invariants. -/
lemma wrapStep_inv (w : ℕ) (done lines : List String) (cur x : String)
    (hl : ∀ l ∈ lines, lineFromChunk done w l)
    (hc : curFromChunk done w cur) :
    (∀ l ∈ (wrapStep w (lines, cur) x).1, lineFromChunk (done ++ [x]) w l) ∧
    curFromChunk (done ++ [x]) w (wrapStep w (lines, cur) x).2 := by
  rw [show wrapStep w (lines, cur) x
    = if cur.length + x.length + 1 ≤ w then (lines, if cur = "" then x else cur ++ " " ++ x)
      else ((if cur ≠ "" then lines ++ [cur] else lines), x) from rfl]
  by_cases hfit : cur.length + x.length + 1 ≤ w
  · rw [if_pos hfit]
    refine ⟨fun l hlm => lineFromChunk_mono _ _ _ _ (hl l hlm), ?_⟩
    by_cases hcur : cur = ""
    · rw [if_pos hcur]
      exact Or.inr ⟨done, [x], by simp, by simp, rfl, Or.inr rfl⟩
    · rw [if_neg hcur]
      rcases hc with hemp | ⟨pre, chunk, hdone, hne, hjoin, hgood⟩
      · exact absurd hemp hcur
      · refine Or.inr ⟨pre, chunk ++ [x], by rw [hdone]; simp, by simp, ?_, ?_⟩
        · rw [pyJoin_snoc " " x chunk hne, ← hjoin]
        · left
          rw [String.length_append, String.length_append]
          have hsp : (" " : String).length = 1 := rfl
          omega
  · rw [if_neg hfit]
    constructor
    · intro l hlm
      by_cases hcur : cur ≠ ""
      · rw [if_pos hcur] at hlm
        rcases List.mem_append.mp hlm with h | h
        · exact lineFromChunk_mono _ _ _ _ (hl l h)
        · have hl2 : l = cur := by simpa using h
          subst hl2
          rcases hc with hemp | ⟨pre, chunk, hdone, hne, hjoin, hgood⟩
          · exact absurd hemp hcur
          · exact ⟨pre, chunk, [x], by simp [hdone], hne, hjoin, hgood⟩
      · rw [if_neg hcur] at hlm
        exact lineFromChunk_mono _ _ _ _ (hl l hlm)
    · exact Or.inr ⟨done, [x], rfl, by simp, rfl, Or.inr rfl⟩

/-- The fold of `wrapStep` preserves the wrap invariants over any word
suffix. -/
lemma wrap_fold_invariant (w : ℕ) :
    ∀ (ws done lines : List String) (cur : String),
      (∀ l ∈ lines, lineFromChunk done w l) →
      curFromChunk done w cur →
      (∀ l ∈ ((ws.foldl (wrapStep w) (lines, cur)).1), lineFromChunk (done ++ ws) w l) ∧
      curFromChunk (done ++ ws) w ((ws.foldl (wrapStep w) (lines, cur)).2) := by
  intro ws
  induction ws with
  | nil =>
    intro done lines cur hl hc
    simpa using ⟨hl, hc⟩
  | cons x rest ih =>
    intro done lines cur hl hc
    rw [List.foldl_cons]
    have hstep := wrapStep_inv w done lines cur x hl hc
    have hmain := ih (done ++ [x]) (wrapStep w (lines, cur) x).1 (wrapStep w (lines, cur) x).2
      hstep.1 hstep.2
    rw [show done ++ x :: rest = (done ++ [x]) ++ rest by simp]
    simpa using hmain

/-- Every line produced by `wrap_text_lines` is the space-join of a
nonempty contiguous chunk of the input words, fitting the width unless
it is a single word. -/
lemma wrap_lines_from_chunks (w : ℕ) (words : List String) :
    ∀ l ∈ wrap_text_lines words w, lineFromChunk words w l := by
  have main := wrap_fold_invariant w words [] [] "" (by simp) (Or.inl rfl)
  simp only [List.nil_append] at main
  intro l hl
  have hl' : l ∈ (if (words.foldl (wrapStep w) ([], "")).2 ≠ ""
      then (words.foldl (wrapStep w) ([], "")).1 ++ [(words.foldl (wrapStep w) ([], "")).2]
      else (words.foldl (wrapStep w) ([], "")).1) := hl
  by_cases hcur : (words.foldl (wrapStep w) ([], "")).2 ≠ ""
  · rw [if_pos hcur] at hl'
    rcases List.mem_append.mp hl' with h | h
    · exact main.1 l h
    · have hl2 : l = (words.foldl (wrapStep w) ([], "")).2 := by simpa using h
      subst hl2
      rcases main.2 with hemp | ⟨pre, chunk, hdone, hne, hjoin, hgood⟩
      · exact absurd hemp hcur
      · exact ⟨pre, chunk, [], by rw [hdone]; simp, hne, hjoin, hgood⟩
  · rw [if_neg hcur] at hl'
    exact main.1 l hl'

/-- C9 (amended: the declared default width of `wrap_text` is 40, not
50): wrapping breaks only at word boundaries — every output line is the
space-join of a nonempty contiguous chunk of the input words, and
either fits within the width or consists of exactly one over-long word;
no word is ever split. For text longer than the width, `wrap_text` is
the newline-join of these lines. -/
theorem wrap_text_lines_word_boundaries (t : String) (w : ℕ) :
    (∀ line ∈ wrap_text_lines (pySplit t) w,
      lineFromChunk (pySplit t) w line ∧ (line.length ≤ w ∨ line ∈ pySplit t)) ∧
    (t ≠ "" → w < t.length →
      wrap_text (some t) w = pyJoin "\n" (wrap_text_lines (pySplit t) w)) := by
  constructor
  · intro line hline
    have h := wrap_lines_from_chunks w (pySplit t) line hline
    refine ⟨h, ?_⟩
    rcases h with ⟨pre, chunk, post, heq, hne, hjoin, hgood⟩
    rcases hgood with hle | hsing
    · exact Or.inl hle
    · right
      rw [heq, hsing]
      simp
  · intro h1 h2
    show (if t = "" then "-"
      else if t.length ≤ w then t
      else pyJoin "\n" (wrap_text_lines (pySplit t) w)) = _
    rw [if_neg h1, if_neg (by omega)]

/-- C9 counterexample: `wrap_text` declares `max_chars=40`, not 50 —
on a 45-character two-word string the default wraps while width 50
returns the text unchanged, so the two behaviors differ. -/
theorem wrap_default_width_counterexample :
    wrap_text_default (some "aaaaaaaaaaaaaaaaaaaaaa bbbbbbbbbbbbbbbbbbbbbb")
      ≠ wrap_text (some "aaaaaaaaaaaaaaaaaaaaaa bbbbbbbbbbbbbbbbbbbbbb") 50 := by decide

/-- Witness for C9 (amended) at width 4 on `"aural bb"`: the over-long
word `aural` stands alone on its line. -/
theorem wrap_text_lines_word_boundaries_witness :
    (lineFromChunk (pySplit "aural bb") 4 "aural" ∧
      ("aural".length ≤ 4 ∨ "aural" ∈ pySplit "aural bb")) ∧
    wrap_text (some "aural bb") 4 = pyJoin "\n" (wrap_text_lines (pySplit "aural bb") 4) :=
  ⟨(wrap_text_lines_word_boundaries "aural bb" 4).1 "aural" (by decide),
   (wrap_text_lines_word_boundaries "aural bb" 4).2 (by decide) (by decide)⟩

end InvoiceGen
